import Mathlib

/-!
# Sql101 bootstrap scaffold

A shallow embedding of the two translation units of the repository:

* `src/main.cpp`: the bootstrap entry point (`Sql101.Bootstrap.main`);
* `tests/bootstrap_test.cpp`: the smoke tests and their runner
  (`Sql101.BootstrapTest`).

Side effects are made explicit: every function takes the process state `Proc`
and returns the new one. The state records the process-wide log level and the
ordered list of observable events (log calls, `set_level` calls, writes to
through `std::cout`). The logging library is not part of the repository. Its
default configuration is taken as documented: a default logger exists, its sink
is standard output, and a record is written as one formatted line when its
severity passes the log level; the line format, which carries the time, is an
input (`Formatter`). Library calls whose result the tests receive (`spdlog::get`,
`spdlog::default_logger`) are answered by a `Lookups` value. Dereferencing a
null handle is undefined behaviour and is modelled as a `Crash`: the run stops
there and no value is returned.
-/

namespace Sql101

/-- Severity levels of `spdlog::level::level_enum`. -/
inductive Level where
  | trace | debug | info | warn | err | critical | off
deriving DecidableEq, Repr

/-- Observable events of a process, in the order they happen. A `log` event is one
log call: a record of the given severity handed to the logging backend. -/
inductive Event where
  | set_level (l : Level)
  | log (l : Level) (msg : String)
  | cout (s : String)
deriving DecidableEq, Repr

/-- Process state: the process-wide minimum severity and the events so far
(oldest first). -/
structure Proc where
  level : Level
  events : List Event
deriving DecidableEq, Repr

/-- State of a freshly started process whose logging backend starts at level `lvl`:
nothing has happened yet. -/
def Proc.start (lvl : Level) : Proc := ⟨lvl, []⟩

/-- Free function `spdlog::info(msg)`: one log call at severity `info`. -/
def spdlog.info (msg : String) (p : Proc) : Proc :=
  { p with events := p.events ++ [Event.log Level.info msg] }

/-- Free function `spdlog::set_level(l)`: sets the process-wide level. -/
def spdlog.set_level (l : Level) (p : Proc) : Proc :=
  { level := l, events := p.events ++ [Event.set_level l] }

/-- Statement `std::cout << s;`. -/
def cout (s : String) (p : Proc) : Proc :=
  { p with events := p.events ++ [Event.cout s] }

/-- The text the program itself writes through `std::cout` in a list of events:
the log records are left out. -/
def coutText : List Event → String
  | [] => ""
  | Event.cout s :: es => s ++ coutText es
  | _ :: es => coutText es

/-- Numeric value of a severity in `spdlog::level::level_enum`. -/
def Level.rank : Level → Nat
  | Level.trace => 0
  | Level.debug => 1
  | Level.info => 2
  | Level.warn => 3
  | Level.err => 4
  | Level.critical => 5
  | Level.off => 6

/-- Name of a severity as the logging library prints it. -/
def Level.name : Level → String
  | Level.trace => "trace"
  | Level.debug => "debug"
  | Level.info => "info"
  | Level.warn => "warning"
  | Level.err => "error"
  | Level.critical => "critical"
  | Level.off => "off"

/-- Library test `should_log`: a record of severity `msg` passes the level
`current` when it is at least as severe. -/
def should_log (current msg : Level) : Bool := decide (current.rank ≤ msg.rank)

/-- The line format of the logging backend, an input of the model: `fmt n l msg` is
the text of the line (without its end of line) written for the record number
`n` on the sink, of severity `l` and message `msg`. It stands for the pattern
and for the time of the record. -/
abbrev Formatter := Nat → Level → String → String

/-- The documented default line format of the logging library for the default
logger, whose name is empty: the time in brackets, the severity in brackets,
the message. `clock n` is the time printed for record number `n`. -/
def defaultPattern (clock : Nat → String) : Formatter :=
  fun n l msg => "[" ++ clock n ++ "] [" ++ l.name ++ "] " ++ msg

/-- Modelled from the spec: the logging backend, which is not in the repository,
writes to its "configured sink (default: console)", that is to standard output.
The text on standard output produced by a list of events, when the level is
`cur` and `n` records were written before: a `std::cout` write adds its text, a
log record that passes the level adds its formatted line and an end of line, a
`set_level` call changes the level. -/
def stdoutFrom (fmt : Formatter) : Level → Nat → List Event → String
  | _, _, [] => ""
  | _, n, Event.set_level l :: es => stdoutFrom fmt l n es
  | cur, n, Event.log l m :: es =>
    if should_log cur l then fmt n l m ++ ("\n" ++ stdoutFrom fmt cur (n + 1) es)
    else stdoutFrom fmt cur n es
  | cur, n, Event.cout s :: es => s ++ stdoutFrom fmt cur n es

/-- The standard output of a process that started at level `lvl` and produced the
events `es`. -/
def stdout (fmt : Formatter) (lvl : Level) (es : List Event) : String :=
  stdoutFrom fmt lvl 0 es

/-- The log calls among a list of events, in order. -/
def logCalls : List Event → List (Level × String)
  | [] => []
  | Event.log l m :: es => (l, m) :: logCalls es
  | _ :: es => logCalls es

/-- Whether every log call in the list is preceded by a `set_level` call;
`seen` says whether a `set_level` call has already happened. -/
def levelSetBeforeLog : Bool → List Event → Bool
  | _, [] => true
  | _, Event.set_level _ :: es => levelSetBeforeLog true es
  | seen, Event.log _ _ :: es => seen && levelSetBeforeLog seen es
  | seen, Event.cout _ :: es => levelSetBeforeLog seen es

/-- Whether an event is a `set_level` call. -/
def Event.isSetLevel : Event → Bool
  | Event.set_level _ => true
  | _ => false

/-- Splits text at newline characters: the complete lines (each was terminated by a
newline, which is removed) and the unterminated remainder after the last newline.
`cur` is the current line so far, reversed. -/
def splitLines : List Char → List Char → List (List Char) × List Char
  | cur, [] => ([], cur.reverse)
  | cur, c :: cs =>
    if c = '\n' then ((cur.reverse) :: (splitLines [] cs).1, (splitLines [] cs).2)
    else splitLines (c :: cur) cs

/-- The complete lines of a text. -/
def lines (s : String) : List String := ((splitLines [] s.data).1).map String.mk

/-- The unterminated remainder of a text after its last newline. -/
def lastPartial (s : String) : String := String.mk (splitLines [] s.data).2

namespace Bootstrap

/-- Function `main` of `src/main.cpp`: returns the final process state and the exit
status. The sixth write is two adjacent string literals, which the compiler
joins into one. -/
def main (p : Proc) : Proc × Int :=
  let p := spdlog.info "SQL Learning Game - Bootstrap Version" p
  let p := spdlog.info "Project structure initialized successfully!" p
  let p := cout "Welcome to the SQL Learning Game!\n" p
  let p := cout "This is the bootstrap version (M0 milestone).\n" p
  let p := cout "The project foundation has been set up with:\n" p
  let p := cout "  - CMake build system with C++23 support\n" p
  let p := cout "  - Clang compiler configuration\n" p
  let p := cout ("  - Modern C++ dependencies (spdlog, yaml-cpp, sqlpp11, " ++
               "GoogleTest)\n") p
  let p := cout "  - Modular directory structure\n" p
  let p := cout "  - Ready for M1 implementation phase\n" p
  (p, 0)

/-- The eight banner strings, in source order (the sixth with its two literals
already joined). -/
def banner : List String :=
  [ "Welcome to the SQL Learning Game!\n",
    "This is the bootstrap version (M0 milestone).\n",
    "The project foundation has been set up with:\n",
    "  - CMake build system with C++23 support\n",
    "  - Clang compiler configuration\n",
    "  - Modern C++ dependencies (spdlog, yaml-cpp, sqlpp11, GoogleTest)\n",
    "  - Modular directory structure\n",
    "  - Ready for M1 implementation phase\n" ]

/-- The standard output of one run of the bootstrap entry point in a process that
starts at log level `lvl`, with the line format `fmt`. -/
def output (fmt : Formatter) (lvl : Level) : String :=
  stdout fmt lvl (main (Proc.start lvl)).1.events

end Bootstrap

/-- A logger object of the logging library, identified by its name. -/
structure Logger where
  name : String
deriving DecidableEq, Repr

/-- A handle `std::shared_ptr<spdlog::logger>`; `none` is the null handle. -/
abbrev LoggerPtr := Option Logger

/-- What the logger lookups of the logging library answer in one run:
`get n` is the result of `spdlog::get(n)` and `default_logger` the result of
`spdlog::default_logger()`. The library is not part of the repository, so the
answers are inputs of the model. -/
structure Lookups where
  get : String → LoggerPtr
  default_logger : LoggerPtr

/-- Context of a running test: the process state and the expectations of the
current test that failed so far. -/
structure Ctx where
  proc : Proc
  failures : List String
deriving DecidableEq, Repr

/-- Undefined behaviour the model can run into. -/
inductive Fault where
  | null_deref
  | signed_overflow
deriving DecidableEq, Repr

/-- An aborted run: the fault and the context in which it happened. -/
structure Crash where
  fault : Fault
  ctx : Ctx
deriving DecidableEq, Repr

/-- Largest value of the C++ type `int` (32 bits on the targets of the build). -/
def INT_MAX : Int := 2147483647

/-- Smallest value of the C++ type `int`. -/
def INT_MIN : Int := -2147483648

/-- Addition of two `int` values; `none` on signed overflow, which is undefined
behaviour. -/
def int_add (a b : Int) : Option Int :=
  if INT_MIN ≤ a + b ∧ a + b ≤ INT_MAX then some (a + b) else none

/-- Test-framework expectation `EXPECT_EQ(a, b)`: records a failure when the values
differ and lets the test go on in both cases. -/
def EXPECT_EQ {α : Type} [DecidableEq α] (a b : α) (what : String) (c : Ctx) : Ctx :=
  if a = b then c else { c with failures := c.failures ++ [what] }

/-- Test-framework expectation `EXPECT_NE(a, b)`: records a failure when the values
are equal and lets the test go on in both cases. -/
def EXPECT_NE {α : Type} [DecidableEq α] (a b : α) (what : String) (c : Ctx) : Ctx :=
  if a ≠ b then c else { c with failures := c.failures ++ [what] }

/-- Test-framework expectation `EXPECT_TRUE(b)`: records a failure when the
condition is false and lets the test go on in both cases. -/
def EXPECT_TRUE (b : Bool) (what : String) (c : Ctx) : Ctx :=
  if b then c else { c with failures := c.failures ++ [what] }

/-- Member call `h->info(msg)` on a handle: dereferencing the null handle is
undefined behaviour; on a logger it is one log call at severity `info`. -/
def LoggerPtr.info (h : LoggerPtr) (msg : String) (c : Ctx) : Except Crash Ctx :=
  match h with
  | none => Except.error ⟨Fault.null_deref, c⟩
  | some _ => Except.ok { c with proc := spdlog.info msg c.proc }

/-- Outcome of one check. -/
inductive Verdict where
  | holds
  | fails
deriving DecidableEq, Repr

namespace BootstrapTest

/-- The body of a test: it runs in a context and either finishes or crashes. -/
abbrev TestBody := Lookups → Ctx → Except Crash Ctx

/-- Test `TEST(BootstrapTest, BasicFunctionality)`. -/
def BasicFunctionality : TestBody := fun _ c => do
  let c := { c with proc := spdlog.info "Running bootstrap test" c.proc }
  let sum ← (match int_add 1 1 with
    | some v => Except.ok v
    | none => Except.error ⟨Fault.signed_overflow, c⟩)
  let c := EXPECT_EQ sum 2 "1 + 1 == 2" c
  let c := EXPECT_TRUE true "true" c
  pure c

set_option linter.unusedVariables false

/-- Test `TEST(BootstrapTest, DependenciesAvailable)`. The handle `logger` is looked
up and not used afterwards, as in the source. -/
def DependenciesAvailable : TestBody := fun lk c => do
  let logger := lk.get "console"
  let test_logger := lk.default_logger
  let c := EXPECT_NE test_logger none "test_logger != nullptr" c
  let c ← test_logger.info "Dependencies are properly linked!" c
  pure c

/-- The tests the two `TEST` definitions register, in source order. -/
def registered : List TestBody := [BasicFunctionality, DependenciesAvailable]

/-- Runs one test body in a fresh context (no failure recorded yet) on the process
state `p`; a test that finishes holds when no expectation failed. -/
def runTest (t : TestBody) (lk : Lookups) (p : Proc) : Except Crash (Proc × Verdict) :=
  match t lk ⟨p, []⟩ with
  | Except.error e => Except.error e
  | Except.ok c => Except.ok (c.proc, if c.failures = [] then Verdict.holds else Verdict.fails)

/-- Runs the tests one after the other, threading the process state. -/
def runTests (lk : Lookups) : List TestBody → Proc → Except Crash (Proc × List Verdict)
  | [], p => Except.ok (p, [])
  | t :: ts, p =>
    match runTest t lk p with
    | Except.error e => Except.error e
    | Except.ok (p1, v) =>
      match runTests lk ts p1 with
      | Except.error e => Except.error e
      | Except.ok (p2, vs) => Except.ok (p2, v :: vs)

/-- Modelled from the spec: the aggregation of the test runner, which is in the
test library and not in the repository, over a list of tests: it "returns a
non-zero process status if any check fails, zero otherwise". -/
def aggregate (lk : Lookups) (ts : List TestBody) (p : Proc) : Except Crash (Proc × Int) :=
  match runTests lk ts p with
  | Except.error e => Except.error e
  | Except.ok (p1, vs) => Except.ok (p1, if vs.all (fun v => v = Verdict.holds) then 0 else 1)

/-- Modelled from the spec: the test-framework macro `RUN_ALL_TESTS()`, whose
definition is in the test library and not in the repository. It runs the
registered tests and "returns a non-zero process status if any check fails,
zero otherwise". -/
def RUN_ALL_TESTS (lk : Lookups) (p : Proc) : Except Crash (Proc × Int) :=
  aggregate lk registered p

/-- Library call `::testing::InitGoogleTest(&argc, argv)` for an invocation without
arguments: there is no flag to consume and nothing observable happens. -/
def InitGoogleTest (p : Proc) : Proc := p

/-- Function `main` of `tests/bootstrap_test.cpp`, invoked without arguments:
the final process state and the exit status, or a crash. -/
def main (lk : Lookups) (p : Proc) : Except Crash (Proc × Int) :=
  let p := InitGoogleTest p
  let p := spdlog.set_level Level.info p
  RUN_ALL_TESTS lk p

/-- The verdict of one check run on its own from process state `p`; `none` when the
check crashes and so reaches no verdict. -/
def verdict (t : TestBody) (lk : Lookups) (p : Proc) : Option Verdict :=
  match runTest t lk p with
  | Except.error _ => none
  | Except.ok (_, v) => some v

/-- The events of a run of the test binary up to its end, be it a return or a
crash. -/
def eventsOf : Except Crash (Proc × Int) → List Event
  | Except.error e => e.ctx.proc.events
  | Except.ok (p, _) => p.events

end BootstrapTest

end Sql101

namespace Sql101

set_option maxRecDepth 100000

/-! ## The bootstrap entry point -/

/-- The events one run of the bootstrap entry point adds, in order. -/
theorem Bootstrap.main_eq (p : Proc) :
    Bootstrap.main p =
      (⟨p.level, p.events ++
        ([Event.log Level.info "SQL Learning Game - Bootstrap Version",
          Event.log Level.info "Project structure initialized successfully!"] ++
          Bootstrap.banner.map Event.cout)⟩, 0) := by
  simp [Bootstrap.main, spdlog.info, cout, Bootstrap.banner]

theorem coutText_append (es fs : List Event) :
    coutText (es ++ fs) = coutText es ++ coutText fs := by
  induction es with
  | nil => simp [coutText]
  | cons e es ih =>
    cases e <;> simp [coutText, ih, String.append_assoc]

theorem coutText_main (p : Proc) :
    coutText (Bootstrap.main p).1.events =
      coutText p.events ++ String.join Bootstrap.banner := by
  rw [Bootstrap.main_eq, coutText_append]
  rfl

theorem coutText_start (lvl : Level) :
    coutText (Bootstrap.main (Proc.start lvl)).1.events = String.join Bootstrap.banner := by
  rfl

/-- The standard output of a run of the bootstrap entry point: the two log lines
when severity `info` passes the starting level, then the banner. -/
theorem Bootstrap.output_eq (fmt : Formatter) (lvl : Level) :
    Bootstrap.output fmt lvl =
      if should_log lvl Level.info then
        fmt 0 Level.info "SQL Learning Game - Bootstrap Version" ++ ("\n" ++
          (fmt 1 Level.info "Project structure initialized successfully!" ++ ("\n" ++
            String.join Bootstrap.banner)))
      else String.join Bootstrap.banner := by
  cases lvl <;> rfl

/-- C1: every run of the bootstrap entry point reaches its return statement (the
model is a total function) and the exit status it returns is 0, whatever the
process state it starts from. -/
theorem C1_main_returns_zero (p : Proc) : (Bootstrap.main p).2 = 0 := by
  rfl

/-- C2, as stated, fails: at the starting level `info` and with the default line
format, the two log records are written to standard output too, so the standard
output of a run has ten lines, not eight. -/
theorem C2_default_stdout_has_ten_lines :
    (lines (Bootstrap.output (defaultPattern (fun _ => "2024-01-01 12:00:00.000"))
      Level.info)).length = 10 ∧
    lastPartial (Bootstrap.output (defaultPattern (fun _ => "2024-01-01 12:00:00.000"))
      Level.info) = "" := by
  decide

/-- C2, amended: the text a run of the bootstrap entry point writes through
`std::cout` is not empty, splits at newlines into exactly eight lines, none of
them empty and none containing a newline, has nothing after its last newline,
and is these eight lines each followed by a newline. The standard output of the
run is this text, preceded by the formatted line and end of line of each of the
two log records when severity `info` passes the starting level, and by nothing
otherwise. -/
theorem C2_cout_eight_lines_after_log_lines :
    (∀ lvl : Level,
      coutText (Bootstrap.main (Proc.start lvl)).1.events ≠ "" ∧
      (lines (coutText (Bootstrap.main (Proc.start lvl)).1.events)).length = 8 ∧
      (lines (coutText (Bootstrap.main (Proc.start lvl)).1.events)).all
        (fun l => decide (l ≠ "") && !l.data.contains '\n') = true ∧
      lastPartial (coutText (Bootstrap.main (Proc.start lvl)).1.events) = "" ∧
      String.join ((lines (coutText (Bootstrap.main (Proc.start lvl)).1.events)).map
        (fun l => l ++ "\n")) = coutText (Bootstrap.main (Proc.start lvl)).1.events) ∧
    (∀ (fmt : Formatter) (lvl : Level),
      Bootstrap.output fmt lvl =
        if should_log lvl Level.info then
          fmt 0 Level.info "SQL Learning Game - Bootstrap Version" ++ ("\n" ++
            (fmt 1 Level.info "Project structure initialized successfully!" ++ ("\n" ++
              coutText (Bootstrap.main (Proc.start lvl)).1.events)))
        else coutText (Bootstrap.main (Proc.start lvl)).1.events) := by
  refine ⟨fun lvl => ?_, fun fmt lvl => ?_⟩
  · rw [coutText_start]
    decide
  · rw [coutText_start]
    exact Bootstrap.output_eq fmt lvl

/-- C3, as stated, fails: with the default line format the standard output depends
on the starting log level and on the time of the run, its first line is a log
record and not the welcome line, and its sixth line is the fourth banner
line. -/
theorem C3_stdout_depends_on_level_and_time :
    Bootstrap.output (defaultPattern (fun _ => "2024-01-01 12:00:00.000")) Level.info ≠
      Bootstrap.output (defaultPattern (fun _ => "2024-01-01 12:00:00.000")) Level.warn ∧
    Bootstrap.output (defaultPattern (fun _ => "2024-01-01 12:00:00.000")) Level.info ≠
      Bootstrap.output (defaultPattern (fun _ => "2024-01-01 12:00:01.000")) Level.info ∧
    (lines (Bootstrap.output (defaultPattern (fun _ => "2024-01-01 12:00:00.000"))
      Level.info))[0]? =
        some "[2024-01-01 12:00:00.000] [info] SQL Learning Game - Bootstrap Version" ∧
    (lines (Bootstrap.output (defaultPattern (fun _ => "2024-01-01 12:00:00.000"))
      Level.info))[5]? = some "  - CMake build system with C++23 support" := by
  decide

/-- C3, amended: the text the bootstrap entry point writes through `std::cout` is
the concatenation of the eight banner strings in source order, whatever the
logger level the process starts with; from any process state the run appends
exactly that text. Its lines are the eight given ones: the first is the welcome
line and the sixth is the single line made of the two adjacent literals. The
standard output of a run ends with this text, whatever the line format and the
starting level. -/
theorem C3_cout_text_is_banner :
    (∀ lvl : Level,
      coutText (Bootstrap.main (Proc.start lvl)).1.events = String.join Bootstrap.banner) ∧
    (∀ p : Proc,
      coutText (Bootstrap.main p).1.events =
        coutText p.events ++ String.join Bootstrap.banner) ∧
    (∀ lvl : Level, lines (coutText (Bootstrap.main (Proc.start lvl)).1.events) =
      [ "Welcome to the SQL Learning Game!",
        "This is the bootstrap version (M0 milestone).",
        "The project foundation has been set up with:",
        "  - CMake build system with C++23 support",
        "  - Clang compiler configuration",
        "  - Modern C++ dependencies (spdlog, yaml-cpp, sqlpp11, GoogleTest)",
        "  - Modular directory structure",
        "  - Ready for M1 implementation phase" ]) ∧
    (∀ (fmt : Formatter) (lvl : Level),
      ∃ before, Bootstrap.output fmt lvl = before ++ String.join Bootstrap.banner) := by
  refine ⟨coutText_start, coutText_main, fun lvl => ?_, fun fmt lvl => ?_⟩
  · rw [coutText_start]
    rfl
  · rw [Bootstrap.output_eq]
    by_cases h : should_log lvl Level.info = true
    · refine ⟨fmt 0 Level.info "SQL Learning Game - Bootstrap Version" ++ ("\n" ++
        (fmt 1 Level.info "Project structure initialized successfully!" ++ "\n")), ?_⟩
      simp [h, String.append_assoc]
    · refine ⟨"", ?_⟩
      simp [h]

/-- C8: from any process state, a run of the bootstrap entry point adds exactly
these events in this order: the two log calls at severity `info` with the two
given messages, then the eight writes of the banner strings to standard
output; it leaves the log level as it was and returns 0. So its log calls are
these two and both come before the first write. -/
theorem C8_two_log_records_then_banner (p : Proc) :
    Bootstrap.main p =
      (⟨p.level, p.events ++
        ([Event.log Level.info "SQL Learning Game - Bootstrap Version",
          Event.log Level.info "Project structure initialized successfully!"] ++
          Bootstrap.banner.map Event.cout)⟩, 0) ∧
    logCalls (Bootstrap.main (Proc.start p.level)).1.events =
      [(Level.info, "SQL Learning Game - Bootstrap Version"),
       (Level.info, "Project structure initialized successfully!")] ∧
    (Bootstrap.banner.map Event.cout).length = 8 := by
  exact ⟨Bootstrap.main_eq p, rfl, rfl⟩

/-! ## The smoke tests and their runner -/

open BootstrapTest

/-- The first check finishes without a recorded failure: it only adds its log
call to the process state. -/
theorem BasicFunctionality_eq (lk : Lookups) (c : Ctx) :
    BasicFunctionality lk c =
      Except.ok { c with proc := spdlog.info "Running bootstrap test" c.proc } := by
  rfl

/-- The second check on a non-null default handle: no failure is recorded and the
log call is made. -/
theorem DependenciesAvailable_some (g : String → LoggerPtr) (l : Logger) (c : Ctx) :
    DependenciesAvailable ⟨g, some l⟩ c =
      Except.ok { c with proc := spdlog.info "Dependencies are properly linked!" c.proc } := by
  rfl

/-- C7, as stated, fails for the bootstrap entry point: its first event is a log
call and no `set_level` call comes before it. -/
theorem C7_bootstrap_logs_without_set_level :
    levelSetBeforeLog false (Bootstrap.main (Proc.start Level.info)).1.events = false ∧
    (Bootstrap.main (Proc.start Level.info)).1.events.head? =
      some (Event.log Level.info "SQL Learning Game - Bootstrap Version") := by
  exact ⟨rfl, rfl⟩

/-- C7, amended: in every run of the test binary the first event is the call
`set_level(info)` and every log call comes after it, up to the return or the
crash. The bootstrap entry point makes no `set_level` call at all and leaves the
log level as it found it. -/
theorem C7_set_level_first_in_test_binary_only :
    (∀ (lk : Lookups) (lvl : Level),
      levelSetBeforeLog false (eventsOf (BootstrapTest.main lk (Proc.start lvl))) = true ∧
      (eventsOf (BootstrapTest.main lk (Proc.start lvl))).head? =
        some (Event.set_level Level.info)) ∧
    (∀ lvl : Level,
      (Bootstrap.main (Proc.start lvl)).1.events.any Event.isSetLevel = false) ∧
    (∀ p : Proc, (Bootstrap.main p).1.level = p.level) := by
  refine ⟨?_, fun lvl => rfl, fun p => rfl⟩
  rintro ⟨g, d⟩ lvl
  cases d with
  | none => exact ⟨rfl, rfl⟩
  | some l => exact ⟨rfl, rfl⟩

/-- C9: the second check does not depend on what the lookup of the logger named
"console" (or of any other name) answers: with the same default handle, two
runs give the same result, final state included, and so the same verdict. -/
theorem C9_named_lookup_is_irrelevant (g1 g2 : String → LoggerPtr) (d : LoggerPtr)
    (c : Ctx) (p : Proc) :
    DependenciesAvailable ⟨g1, d⟩ c = DependenciesAvailable ⟨g2, d⟩ c ∧
    verdict DependenciesAvailable ⟨g1, d⟩ p = verdict DependenciesAvailable ⟨g2, d⟩ p := by
  exact ⟨rfl, rfl⟩

/-- C10: the sum `1 + 1` in `int` arithmetic is 2 without overflow, and the first
check holds for every answer of the logger lookups and every process state: it
finishes, records no failure and only adds its log call. -/
theorem C10_basic_functionality_holds (lk : Lookups) (c : Ctx) (p : Proc) :
    int_add 1 1 = some 2 ∧
    BasicFunctionality lk c =
      Except.ok { c with proc := spdlog.info "Running bootstrap test" c.proc } ∧
    verdict BasicFunctionality lk p = some Verdict.holds := by
  exact ⟨rfl, rfl, rfl⟩

end Sql101
